import Mathlib

/-!
Verification of the EPiC Grasshopper plugin components.

The repository ships two Grasshopper component scripts:
  * `EPiC_Material_Component.py`   — looks a material up in the bundled EPiC
    database and outputs its embodied-flow coefficients;
  * `EPiC_Assembly_Volumetric_Component.py` — aggregates materials/quantities
    into an assembly and sums the embodied flows.

Both scripts consume the domain classes (`EPiCMaterial`, `EPiCAssembly`,
`EPiCDatabase`) from an `epic` module that is not part of the two source
files; definitions for those classes are modelled from the specification
and marked `Modelled from the spec:` below.  Host-UI plumbing (sliders,
sticky session cache, dropdown regeneration, web-browser opening) has no
data-flow into the claims and is not embedded; runtime warning messages the
components emit are modelled as an explicit message list in the result.

Python floats are modelled as exact rationals (`ℚ`); a Python value that
may be `None` is an `Option`; Python truthiness of an optional number is
`none`/`0 ↦ false`, and of an optional string is `none`/`"" ↦ false`.
-/

/-- The three embodied environmental flow types handled by the plugin. -/
inductive FlowType where
  | energy
  | water
  | ghg
deriving DecidableEq, Repr

/-- A triple of per-flow values (a material's coefficient triple, or an
assembly's flow totals). -/
structure FlowSet where
  energy : ℚ
  water : ℚ
  ghg : ℚ
deriving DecidableEq, Repr

/-- Select the component of a `FlowSet` for a given flow type. -/
def FlowSet.get : FlowSet → FlowType → ℚ
  | s, .energy => s.energy
  | s, .water => s.water
  | s, .ghg => s.ghg

/-- Python truthiness of an optional number: `None` and `0` are falsy. -/
def pyNumTruthy : Option ℚ → Bool
  | none => false
  | some c => c != 0

/-- Python truthiness of an optional string: `None` and `""` are falsy. -/
def pyStrTruthy : Option String → Bool
  | none => false
  | some s => s != ""

/-! ## The material component (`EPiC_Material_Component.py`) -/

/-- The fields `epic_db.query` returns for a material
(`EPiC_Material_Component.py` lines 180-182).  A coefficient or density the
database lacks is `none`. -/
structure DbRecord where
  energy : Option ℚ
  water : Option ℚ
  ghg : Option ℚ
  functional_unit : String
  name : String
  doi : String
  category : String
  density : Option ℚ
deriving DecidableEq, Repr

/-- The three optional reduction-factor inputs of the material component. -/
structure Reductions where
  energy : Option ℚ
  water : Option ℚ
  ghg : Option ℚ
deriving DecidableEq, Repr

/-- One reduction assignment of `EPiC_Material_Component.py` lines 216-220:
`c if not r and r != 0 else c / 100 * abs(100 - r)`.  The coefficient is kept
exactly when the reduction input is `None` (for `r = 0` the branch applies
and yields `c` again); at every call site `c` is a truthy number, so the
`none` case of `c` cannot reach the arithmetic. -/
def applyReduction (c : Option ℚ) (r : Option ℚ) : Option ℚ :=
  match r with
  | none => c
  | some rv => c.map (fun cv => cv / 100 * |100 - rv|)

/-- The guarded reduction block of `EPiC_Material_Component.py` lines
215-220: reductions are applied only `if water and ghg and energy`; when any
of the three coefficients is missing or zero all three pass through
unchanged. -/
def reduceCoefficients (energy water ghg : Option ℚ) (red : Reductions) :
    Option ℚ × Option ℚ × Option ℚ :=
  if pyNumTruthy water && pyNumTruthy ghg && pyNumTruthy energy then
    (applyReduction energy red.energy, applyReduction water red.water,
     applyReduction ghg red.ghg)
  else
    (energy, water, ghg)

/-- Modelled from the spec: the `epic.EPiCMaterial` class constructed at
`EPiC_Material_Component.py` lines 223-229 is not in the source files; its
attributes are those the component docstring lists (name, energy, water,
ghg, functional_unit, doi, category, material_id, wastage, service_life,
comments) plus density, stored as passed. -/
structure EPiCMaterial where
  name : String
  energy : Option ℚ
  water : Option ℚ
  ghg : Option ℚ
  functional_unit : String
  doi : String
  category : String
  material_id : String
  wastage : Option ℚ
  service_life : Option ℚ
  comments : Option String
  density : Option ℚ
deriving DecidableEq, Repr

/-- The material-id fixup of `EPiC_Material_Component.py` lines 166-178: if
the selected material is not in the selected category, a legacy-database
lookup may substitute a current id; when the lookup also fails the original
id is still used for the query (the code only regenerates the GUI list). -/
def resolveMaterialId (categoryDict : String → List String)
    (legacy : String → Option String) (cat id : String) : String :=
  if id ∈ categoryDict cat then id
  else
    match legacy id with
    | some l => l
    | none => id

/-- The warning string of `EPiC_Material_Component.py` line 238. -/
def material_component_warning : String :=
  "Connect a button to the first input, and activate to generate a material & category list"

/-- The inputs of `EPiCMaterialComponent.RunScript` that flow into its
returned data (the toggle/help buttons only drive GUI side effects). -/
structure MatInputs where
  material_category : Option String
  material_id : Option String
  comments : Option String
  wastage : Option ℚ
  service_life : Option ℚ
  energy_reduction : Option ℚ
  water_reduction : Option ℚ
  ghg_reduction : Option ℚ
deriving DecidableEq, Repr

/-- The value `EPiCMaterialComponent.RunScript` returns: on success the
12 outputs of line 232-234, on failure the string list of line 240. -/
inductive MatResult where
  | success (material : EPiCMaterial) (energy water ghg : Option ℚ)
      (doi : String) (density : Option ℚ) (functional_unit : String)
      (wastage service_life : Option ℚ) (disclaimer : String)
  | failure (values : List String)
deriving DecidableEq, Repr

/-- A run of the material component: its return value together with the
runtime warning messages it adds. -/
structure MatRun where
  result : MatResult
  messages : List String
deriving DecidableEq, Repr

/-- `EPiCMaterialComponent.RunScript` (`EPiC_Material_Component.py` lines
162-240), restricted to its data flow.  `db` stands for `epic_db.query`
(modelled from the spec: the `EPiCDatabase` class is not in the source
files), `categoryDict` for `epic_db.dict_of_categories`, `legacy` for
`epic_db._query_for_name_or_old_mat_id`, and `disclaimer` for
`epic.DISCLAIMER`.  GUI effects (dropdown/slider generation, sticky cache)
are omitted; the failure-branch warning is recorded in `messages`. -/
def materialRunScript (db : String → DbRecord)
    (categoryDict : String → List String) (legacy : String → Option String)
    (disclaimer : String) (inp : MatInputs) : MatRun :=
  if pyStrTruthy inp.material_id && pyStrTruthy inp.material_category then
    let cat := inp.material_category.getD ""
    let id := resolveMaterialId categoryDict legacy cat (inp.material_id.getD "")
    let record := db id
    let c := reduceCoefficients record.energy record.water record.ghg
      ⟨inp.energy_reduction, inp.water_reduction, inp.ghg_reduction⟩
    let mat : EPiCMaterial :=
      { name := record.name, energy := c.1, water := c.2.1, ghg := c.2.2,
        functional_unit := record.functional_unit, doi := record.doi,
        category := record.category, material_id := id,
        wastage := inp.wastage, service_life := inp.service_life,
        comments := inp.comments, density := record.density }
    { result := .success mat c.1 c.2.1 c.2.2 record.doi record.density
        record.functional_unit inp.wastage inp.service_life disclaimer,
      messages := [] }
  else
    { result := .failure (List.replicate 11 material_component_warning ++ [disclaimer]),
      messages := [material_component_warning] }

/-- The energy-coefficient output of a material-component run (`none` on the
failure branch). -/
def MatRun.energyOut : MatRun → Option ℚ
  | ⟨.success _ e _ _ _ _ _ _ _ _, _⟩ => e
  | _ => none

/-- The water-coefficient output of a material-component run. -/
def MatRun.waterOut : MatRun → Option ℚ
  | ⟨.success _ _ w _ _ _ _ _ _ _, _⟩ => w
  | _ => none

/-- The GHG-coefficient output of a material-component run. -/
def MatRun.ghgOut : MatRun → Option ℚ
  | ⟨.success _ _ _ g _ _ _ _ _ _, _⟩ => g
  | _ => none

/-- The DOI output of a material-component run. -/
def MatRun.doiOut : MatRun → Option String
  | ⟨.success _ _ _ _ d _ _ _ _ _, _⟩ => some d
  | _ => none

/-- The density output of a material-component run. -/
def MatRun.densityOut : MatRun → Option (Option ℚ)
  | ⟨.success _ _ _ _ _ d _ _ _ _, _⟩ => some d
  | _ => none

/-- The functional-unit output of a material-component run. -/
def MatRun.fuOut : MatRun → Option String
  | ⟨.success _ _ _ _ _ _ f _ _ _, _⟩ => some f
  | _ => none

/-- The EPiCMaterial object output of a material-component run. -/
def MatRun.materialOut : MatRun → Option EPiCMaterial
  | ⟨.success m _ _ _ _ _ _ _ _ _, _⟩ => some m
  | _ => none

/-! ## The volumetric assembly component (`EPiC_Assembly_Volumetric_Component.py`) -/

/-- A geometry (or numeric m³ value) input of the volumetric assembly
component.  The component's docstring admits Brep volumes and plain numeric
values; its `geometry_warning` names surface/line/point inputs as the
rejected kinds. -/
inductive Geom where
  | brep (volume : ℚ)
  | value (v : ℚ)
  | surface
  | line
  | point
deriving DecidableEq, Repr

/-- Whether a geometry input is acceptable to the `EPiCAssembly`
constructor (a Brep or a plain numeric value). -/
def Geom.isValid : Geom → Bool
  | .brep _ => true
  | .value _ => true
  | _ => false

/-- Modelled from the spec: one material entry of an assembly, the tuple the
spec's contract names — coefficient triple `{energy, water, ghg}`, quantity,
wastage fraction, service-life years and category.  A missing or non-numeric
coefficient triple (the entries the spec says are skipped with a warning) is
`coeff = none`. -/
structure MaterialEntry where
  coeff : Option FlowSet
  quantity : ℚ
  wastage : ℚ
  service_life : ℚ
  category : String
deriving DecidableEq, Repr

/-- The warning string of `EPiC_Assembly_Volumetric_Component.py` line 67. -/
def geometry_warning : String :=
  "Surface/line/point input detected. Please input Brep geometry"

/-- Modelled from the spec: the warning emitted for an entry whose
coefficients are missing or non-numeric (the `epic` module holding the
exact text is not in the source files). -/
def missing_coefficient_warning : String :=
  "Material coefficient missing or non-numeric; entry skipped"

/-- Modelled from the spec: the `epic.EPiCAssembly` class (not in the source
files), holding the constructor arguments of
`EPiC_Assembly_Volumetric_Component.py` lines 132-134, among them the
optional assembly-level overrides for service life and wastage. -/
structure EPiCAssembly where
  selected_geometry : List Geom
  name : Option String
  service_life_override : Option ℚ
  wastage_override : Option ℚ
  comments : Option String
  materials : List MaterialEntry
  category : Option String
deriving DecidableEq, Repr

/-- Modelled from the spec: the `EPiCAssembly` constructor raises
`TypeError` on surface/line/point geometry (the component catches exactly
that, lines 131-137); every other input yields the assembly object. -/
def mkEPiCAssembly (geom : List Geom) (name : Option String)
    (slOverride wOverride : Option ℚ) (comments : Option String)
    (mats : List MaterialEntry) (category : Option String) :
    Option EPiCAssembly :=
  if geom.all Geom.isValid then
    some { selected_geometry := geom, name := name,
           service_life_override := slOverride, wastage_override := wOverride,
           comments := comments, materials := mats, category := category }
  else
    none

/-- Modelled from the spec: the wastage fraction the flow computation uses
for a material — the assembly-level override when supplied, otherwise the
material's own attribute. -/
def effectiveWastage (a : EPiCAssembly) (m : MaterialEntry) : ℚ :=
  a.wastage_override.getD m.wastage

/-- Modelled from the spec: the service life the flow computation uses for a
material — the assembly-level override when supplied, otherwise the
material's own attribute. -/
def effectiveServiceLife (a : EPiCAssembly) (m : MaterialEntry) : ℚ :=
  a.service_life_override.getD m.service_life

/-- Modelled from the spec: a material's contribution to the assembly's
initial flow of type `f`: `coefficient[f] × quantity × (1 + wastage)`; an
entry with missing coefficients is skipped and contributes nothing. -/
def entryInitial (a : EPiCAssembly) (f : FlowType) (m : MaterialEntry) : ℚ :=
  match m.coeff with
  | none => 0
  | some c => c.get f * m.quantity * (1 + effectiveWastage a m)

/-- Modelled from the spec: the number of replacements of a material over
the design life, `max(0, floor(design_life / service_life))` when the
service life is positive and `0` otherwise (a service life of 0 meaning the
material is never replaced). -/
def replacements (design_life service_life : ℚ) : ℚ :=
  if 0 < service_life then ((max 0 ⌊design_life / service_life⌋ : ℤ) : ℚ)
  else 0

/-- Modelled from the spec: a material's contribution to the assembly's
recurring flow of type `f`: its initial flow times its replacement count. -/
def entryRecurring (design_life : ℚ) (a : EPiCAssembly) (f : FlowType)
    (m : MaterialEntry) : ℚ :=
  entryInitial a f m * replacements design_life (effectiveServiceLife a m)

/-- Modelled from the spec: `EPiCAssembly.calculate_flows` initial total,
`initial_flow[f] = Σ_i coefficient_i[f] × quantity_i × (1 + wastage_i)`. -/
def assemblyInitial (a : EPiCAssembly) (f : FlowType) : ℚ :=
  (a.materials.map (entryInitial a f)).sum

/-- Modelled from the spec: `EPiCAssembly.calculate_flows` recurring total,
the sum of the per-material recurring flows. -/
def assemblyRecurring (design_life : ℚ) (a : EPiCAssembly) (f : FlowType) : ℚ :=
  (a.materials.map (entryRecurring design_life a f)).sum

/-- Modelled from the spec: the warnings `calculate_flows` emits, one per
entry whose coefficients are missing or non-numeric. -/
def assemblyCoeffWarnings (a : EPiCAssembly) : List String :=
  (a.materials.filter (fun m => m.coeff.isNone)).map
    (fun _ => missing_coefficient_warning)

/-- One element of the heterogeneous value sequence a Grasshopper component
returns. -/
inductive GHValue where
  | str (s : String)
  | num (q : ℚ)
  | nil
  | assemblyObj (a : EPiCAssembly)
  | geometryVal (g : List Geom)
deriving DecidableEq, Repr

/-- A run of the volumetric assembly component: the returned value sequence
together with the runtime warning messages it adds. -/
structure AsmRun where
  returns : List GHValue
  messages : List String
deriving DecidableEq, Repr

/-- `EPiCAssemblyVolumetricComponent.RunScript`
(`EPiC_Assembly_Volumetric_Component.py` lines 127-156), restricted to its
data flow.  The `locals()` input-collection loop and
`create_list_of_input_materials_and_qty` GUI pairing deliver the material
list `mats`; a `TypeError` from the constructor (modelled by
`mkEPiCAssembly = none`) returns five copies of `geometry_warning` (line
137), otherwise `calculate_flows` runs and the seven outputs of line 156
are returned. -/
def assemblyRunScript (name category comments : Option String)
    (geom : List Geom) (slOverride wOverride : Option ℚ)
    (mats : List MaterialEntry) : AsmRun :=
  match mkEPiCAssembly geom name slOverride wOverride comments mats category with
  | none =>
      { returns := List.replicate 5 (.str geometry_warning),
        messages := [geometry_warning] }
  | some a =>
      let geomMsgs := if geom.isEmpty then
          ["No geometry is connected to the assembly"] else []
      let matMsgs := if mats.length < 1 then
          ["No input EPiC_Material inputs or material quantities have been found "]
        else []
      { returns := [.assemblyObj a, .nil, .num (assemblyInitial a .energy),
                    .num (assemblyInitial a .water),
                    .num (assemblyInitial a .ghg), .nil, .geometryVal geom],
        messages := geomMsgs ++ matMsgs ++ assemblyCoeffWarnings a }

/-! ## Auxiliary definitions and sample inputs -/

/-- The coefficient of a material entry for a flow type, zero when the
coefficient triple is missing. -/
def coeffOrZero (m : MaterialEntry) (f : FlowType) : ℚ :=
  match m.coeff with
  | none => 0
  | some c => c.get f

/-- A sample assembly with no overrides. -/
def asmSample : EPiCAssembly := ⟨[Geom.brep 1], none, none, none, none, [], none⟩

/-- A sample material entry: coefficients (2, 3, 4), quantity 5, wastage
1/10, service life 10 years. -/
def matSample : MaterialEntry := ⟨some ⟨2, 3, 4⟩, 5, 1/10, 10, "c"⟩

/-- A sample assembly with a wastage override of 1/2 and no service-life
override. -/
def asmOverrideSample : EPiCAssembly :=
  ⟨[Geom.brep 1], none, none, some (1/2), none, [matSample], none⟩

/-- A sample database: every id maps to coefficients (2, 3, 4). -/
def dbSample : String → DbRecord :=
  fun _ => ⟨some 2, some 3, some 4, "kg", "Concrete", "doi-x", "Concrete category", some 2400⟩

/-- A sample database whose water coefficient is zero. -/
def dbZeroWater : String → DbRecord :=
  fun _ => ⟨some 2, some 0, some 4, "kg", "n", "d", "c", some 1⟩

/-- A sample category dictionary: every category holds material `MAT01`. -/
def cdSample : String → List String := fun _ => ["MAT01"]

/-- A sample legacy-id lookup that never finds anything. -/
def lgSample : String → Option String := fun _ => none

/-- Sample material-component inputs with an energy reduction factor of
50 %. -/
def inpReduced : MatInputs :=
  ⟨some "cat", some "MAT01", none, none, none, some 50, none, none⟩

/-- Sample material-component inputs with no reduction factors. -/
def inpPlain : MatInputs :=
  ⟨some "cat", some "MAT01", none, none, none, none, none, none⟩

/-- Sample material-component inputs with no category selected. -/
def inpUnselected : MatInputs :=
  ⟨none, some "MAT01", none, none, none, none, none, none⟩

/-! ## Helper lemmas -/

/-- A material's initial-flow contribution in closed form. -/
theorem entryInitial_eq (a : EPiCAssembly) (f : FlowType) (m : MaterialEntry) :
    entryInitial a f m = coeffOrZero m f * m.quantity * (1 + effectiveWastage a m) := by
  cases h : m.coeff <;> simp [entryInitial, coeffOrZero, h]

/-- Summing a function over a list equals summing it over the filtered list
when it vanishes on the dropped elements. -/
theorem sum_map_filter_of_zero (p : MaterialEntry → Bool) (g : MaterialEntry → ℚ)
    (l : List MaterialEntry) (h : ∀ x ∈ l, p x = false → g x = 0) :
    (l.map g).sum = ((l.filter p).map g).sum := by
  induction l with
  | nil => rfl
  | cons x xs ih =>
    have hxs : ∀ y ∈ xs, p y = false → g y = 0 := fun y hy => h y (List.mem_cons_of_mem _ hy)
    cases hx : p x with
    | true => simp [List.filter_cons, hx, ih hxs]
    | false => simp [List.filter_cons, hx, h x (List.mem_cons_self x xs) hx, ih hxs]

/-- With no reduction factor supplied for any flow, the reduction block
passes all three coefficients through whether or not the guard holds. -/
theorem reduceCoefficients_no_reduction (e w g : Option ℚ) :
    reduceCoefficients e w g ⟨none, none, none⟩ = (e, w, g) := by
  unfold reduceCoefficients applyReduction
  split <;> rfl

/-- When a material id and category are selected and the id is in the
selected category, the material component returns the success outputs built
from the database record of that id. -/
theorem materialRunScript_eq_success (db : String → DbRecord)
    (cd : String → List String) (lg : String → Option String) (disc : String)
    (inp : MatInputs) (id cat : String)
    (hid : inp.material_id = some id) (hid2 : id ≠ "")
    (hcat : inp.material_category = some cat) (hcat2 : cat ≠ "")
    (hin : id ∈ cd cat) :
    materialRunScript db cd lg disc inp =
      { result := .success
          { name := (db id).name,
            energy := (reduceCoefficients (db id).energy (db id).water (db id).ghg
              ⟨inp.energy_reduction, inp.water_reduction, inp.ghg_reduction⟩).1,
            water := (reduceCoefficients (db id).energy (db id).water (db id).ghg
              ⟨inp.energy_reduction, inp.water_reduction, inp.ghg_reduction⟩).2.1,
            ghg := (reduceCoefficients (db id).energy (db id).water (db id).ghg
              ⟨inp.energy_reduction, inp.water_reduction, inp.ghg_reduction⟩).2.2,
            functional_unit := (db id).functional_unit, doi := (db id).doi,
            category := (db id).category, material_id := id,
            wastage := inp.wastage, service_life := inp.service_life,
            comments := inp.comments, density := (db id).density }
          (reduceCoefficients (db id).energy (db id).water (db id).ghg
            ⟨inp.energy_reduction, inp.water_reduction, inp.ghg_reduction⟩).1
          (reduceCoefficients (db id).energy (db id).water (db id).ghg
            ⟨inp.energy_reduction, inp.water_reduction, inp.ghg_reduction⟩).2.1
          (reduceCoefficients (db id).energy (db id).water (db id).ghg
            ⟨inp.energy_reduction, inp.water_reduction, inp.ghg_reduction⟩).2.2
          (db id).doi (db id).density (db id).functional_unit
          inp.wastage inp.service_life disc,
        messages := [] } := by
  simp [materialRunScript, hid, hcat, pyStrTruthy, hid2, hcat2, resolveMaterialId, hin]

/-! ## Claim theorems -/

/-- C1: for every sequence of materials with coefficient triples `cᵢ`,
quantities `qᵢ` and wastage fractions `wᵢ` (and no assembly-level wastage
override), the volumetric component's Initial_Embodied outputs — return
positions 2, 3 and 4 after `calculate_flows` runs — equal
`Σ_i cᵢ[f] × qᵢ × (1 + wᵢ)` for `f` = energy, water, ghg. -/
theorem C1_initial_flow_outputs
    (items : List (FlowSet × ℚ × ℚ × ℚ × String))
    (name category comments : Option String) (geom : List Geom)
    (slOverride : Option ℚ)
    (hg : geom.all Geom.isValid = true) :
    ((assemblyRunScript name category comments geom slOverride none
        (items.map fun x =>
          (⟨some x.1, x.2.1, x.2.2.1, x.2.2.2.1, x.2.2.2.2⟩ : MaterialEntry))).returns[2]?
      = some (.num ((items.map fun x =>
          x.1.get .energy * x.2.1 * (1 + x.2.2.1)).sum)))
    ∧ ((assemblyRunScript name category comments geom slOverride none
        (items.map fun x =>
          (⟨some x.1, x.2.1, x.2.2.1, x.2.2.2.1, x.2.2.2.2⟩ : MaterialEntry))).returns[3]?
      = some (.num ((items.map fun x =>
          x.1.get .water * x.2.1 * (1 + x.2.2.1)).sum)))
    ∧ ((assemblyRunScript name category comments geom slOverride none
        (items.map fun x =>
          (⟨some x.1, x.2.1, x.2.2.1, x.2.2.2.1, x.2.2.2.2⟩ : MaterialEntry))).returns[4]?
      = some (.num ((items.map fun x =>
          x.1.get .ghg * x.2.1 * (1 + x.2.2.1)).sum))) := by
  refine ⟨?_, ?_, ?_⟩ <;>
  · simp [assemblyRunScript, mkEPiCAssembly, hg, assemblyInitial, entryInitial,
      effectiveWastage, List.map_map, Function.comp]
    congr 1

/-- Witness for C1 at one concrete material. -/
theorem C1_witness :
    (([Geom.brep 1].all Geom.isValid = true)) ∧
    ((assemblyRunScript none none none [Geom.brep 1] none none
        ([(⟨1, 2, 3⟩, 5, 1/10, 50, "c")].map fun x =>
          (⟨some x.1, x.2.1, x.2.2.1, x.2.2.2.1, x.2.2.2.2⟩ : MaterialEntry))).returns[2]?
      = some (.num (([((⟨1, 2, 3⟩ : FlowSet), (5:ℚ), (1/10:ℚ), (50:ℚ), "c")].map fun x =>
          x.1.get .energy * x.2.1 * (1 + x.2.2.1)).sum))) := by
  exact ⟨by decide, (C1_initial_flow_outputs _ none none none [Geom.brep 1] none (by decide)).1⟩

/-- C2: with no assembly-level service-life override, a material's recurring
flow equals its initial flow times `max(0, ⌊design_life / service_life⌋)`
when its service life is positive, and is zero when its service life is not
greater than zero. -/
theorem C2_recurring_flow (design_life : ℚ) (a : EPiCAssembly)
    (m : MaterialEntry) (f : FlowType)
    (hsl : a.service_life_override = none) :
    (0 < m.service_life →
      entryRecurring design_life a f m
        = entryInitial a f m * ((max 0 ⌊design_life / m.service_life⌋ : ℤ) : ℚ))
    ∧ (¬ 0 < m.service_life → entryRecurring design_life a f m = 0) := by
  constructor <;> intro h <;>
    simp [entryRecurring, replacements, effectiveServiceLife, hsl, h]

/-- Witness for C2 at a service life of 10 years and design life 25. -/
theorem C2_witness :
    (asmSample.service_life_override = none) ∧
    ((0 < matSample.service_life →
      entryRecurring 25 asmSample .energy matSample
        = entryInitial asmSample .energy matSample
            * ((max 0 ⌊(25:ℚ) / matSample.service_life⌋ : ℤ) : ℚ))
    ∧ (¬ 0 < matSample.service_life →
      entryRecurring 25 asmSample .energy matSample = 0)) :=
  ⟨rfl, C2_recurring_flow 25 asmSample matSample .energy rfl⟩

/-- C3 counterexample: with database coefficients energy 2, water 0, ghg 4
and a supplied energy reduction factor of 50 %, the component outputs the
energy coefficient 2 unchanged, not 2 × (1 − 50/100) = 1 as the claim
states, because the zero water coefficient disables all reductions. -/
theorem C3_counterexample :
    (materialRunScript dbZeroWater cdSample lgSample "disc" inpReduced).energyOut = some 2
    ∧ ¬ (materialRunScript dbZeroWater cdSample lgSample "disc" inpReduced).energyOut
        = some ((2 : ℚ) * (1 - 50 / 100)) := by
  have h1 : (materialRunScript dbZeroWater cdSample lgSample "disc" inpReduced).energyOut
      = some 2 := by
    norm_num [materialRunScript, resolveMaterialId, reduceCoefficients, applyReduction,
      pyStrTruthy, pyNumTruthy, MatRun.energyOut, dbZeroWater, cdSample, lgSample, inpReduced]
    rw [if_pos (by simp)]
  refine ⟨h1, ?_⟩
  rw [h1]
  norm_num

/-- C3 (amended): when all three database coefficients are present and
nonzero, a supplied reduction factor `r` with `0 ≤ r ≤ 100` makes the
output coefficient `c × (1 − r/100)` (so `r = 0` leaves it unchanged,
`r = 50` halves it, `r = 100` zeroes it), and an unsupplied reduction
factor leaves the database coefficient unchanged. -/
theorem C3_reduction_factor (db : String → DbRecord) (cd : String → List String)
    (lg : String → Option String) (disc : String) (inp : MatInputs)
    (id cat : String) (ce cw cg : ℚ)
    (hid : inp.material_id = some id) (hid2 : id ≠ "")
    (hcat : inp.material_category = some cat) (hcat2 : cat ≠ "")
    (hin : id ∈ cd cat)
    (he : (db id).energy = some ce) (hw : (db id).water = some cw)
    (hg : (db id).ghg = some cg)
    (hce : ce ≠ 0) (hcw : cw ≠ 0) (hcg : cg ≠ 0) :
    (∀ r, inp.energy_reduction = some r → 0 ≤ r → r ≤ 100 →
      (materialRunScript db cd lg disc inp).energyOut = some (ce * (1 - r / 100)))
    ∧ (inp.energy_reduction = none →
      (materialRunScript db cd lg disc inp).energyOut = some ce)
    ∧ (∀ r, inp.water_reduction = some r → 0 ≤ r → r ≤ 100 →
      (materialRunScript db cd lg disc inp).waterOut = some (cw * (1 - r / 100)))
    ∧ (inp.water_reduction = none →
      (materialRunScript db cd lg disc inp).waterOut = some cw)
    ∧ (∀ r, inp.ghg_reduction = some r → 0 ≤ r → r ≤ 100 →
      (materialRunScript db cd lg disc inp).ghgOut = some (cg * (1 - r / 100)))
    ∧ (inp.ghg_reduction = none →
      (materialRunScript db cd lg disc inp).ghgOut = some cg) := by
  rw [materialRunScript_eq_success db cd lg disc inp id cat hid hid2 hcat hcat2 hin]
  have habs : ∀ r : ℚ, 0 ≤ r → r ≤ 100 → ∀ c : ℚ, c / 100 * |100 - r| = c * (1 - r / 100) := by
    intro r h0 h100 c
    rw [abs_of_nonneg (by linarith)]
    ring
  refine ⟨?_, ?_, ?_, ?_, ?_, ?_⟩
  · intro r hr h0 h100
    simp [MatRun.energyOut, reduceCoefficients, applyReduction, pyNumTruthy,
      he, hw, hg, hce, hcw, hcg, hr, habs r h0 h100]
  · intro hr
    simp [MatRun.energyOut, reduceCoefficients, applyReduction, pyNumTruthy,
      he, hw, hg, hce, hcw, hcg, hr]
  · intro r hr h0 h100
    simp [MatRun.waterOut, reduceCoefficients, applyReduction, pyNumTruthy,
      he, hw, hg, hce, hcw, hcg, hr, habs r h0 h100]
  · intro hr
    simp [MatRun.waterOut, reduceCoefficients, applyReduction, pyNumTruthy,
      he, hw, hg, hce, hcw, hcg, hr]
  · intro r hr h0 h100
    simp [MatRun.ghgOut, reduceCoefficients, applyReduction, pyNumTruthy,
      he, hw, hg, hce, hcw, hcg, hr, habs r h0 h100]
  · intro hr
    simp [MatRun.ghgOut, reduceCoefficients, applyReduction, pyNumTruthy,
      he, hw, hg, hce, hcw, hcg, hr]

/-- Witness for the amended C3: a 50 % energy reduction on coefficient 2
outputs 2 × (1 − 50/100). -/
theorem C3_witness :
    (inpReduced.material_id = some "MAT01" ∧ ("MAT01" : String) ∈ cdSample "cat"
      ∧ (dbSample "MAT01").energy = some 2
      ∧ inpReduced.energy_reduction = some 50 ∧ (0:ℚ) ≤ 50 ∧ (50:ℚ) ≤ 100) ∧
    (materialRunScript dbSample cdSample lgSample "disc" inpReduced).energyOut
      = some ((2 : ℚ) * (1 - 50 / 100)) :=
  ⟨⟨rfl, by simp [cdSample], rfl, rfl, by norm_num, by norm_num⟩,
   (C3_reduction_factor dbSample cdSample lgSample "disc" inpReduced "MAT01" "cat"
      2 3 4 rfl (by decide) rfl (by decide) (by simp [cdSample]) rfl rfl rfl
      (by norm_num) (by norm_num) (by norm_num)).1
     50 rfl (by norm_num) (by norm_num)⟩

/-- C4: assembly flows are strictly additive and order-independent across
materials — permuting the material list leaves every computed flow value
(initial and recurring) unchanged, and the flows of a concatenation of two
material lists equal the sum of the flows of each list computed
separately. -/
theorem C4_additivity (a : EPiCAssembly) (l1 l2 : List MaterialEntry)
    (design_life : ℚ) (f : FlowType) :
    (List.Perm l1 l2 →
      (assemblyInitial {a with materials := l1} f
          = assemblyInitial {a with materials := l2} f)
      ∧ (assemblyRecurring design_life {a with materials := l1} f
          = assemblyRecurring design_life {a with materials := l2} f))
    ∧ (assemblyInitial {a with materials := l1 ++ l2} f
        = assemblyInitial {a with materials := l1} f
          + assemblyInitial {a with materials := l2} f)
    ∧ (assemblyRecurring design_life {a with materials := l1 ++ l2} f
        = assemblyRecurring design_life {a with materials := l1} f
          + assemblyRecurring design_life {a with materials := l2} f) := by
  have hi : ∀ l : List MaterialEntry,
      assemblyInitial {a with materials := l} f = (l.map (entryInitial a f)).sum := by
    intro l; rfl
  have hr : ∀ l : List MaterialEntry,
      assemblyRecurring design_life {a with materials := l} f
        = (l.map (entryRecurring design_life a f)).sum := by
    intro l; rfl
  refine ⟨fun hperm => ⟨?_, ?_⟩, ?_, ?_⟩
  · rw [hi, hi]; exact (hperm.map _).sum_eq
  · rw [hr, hr]; exact (hperm.map _).sum_eq
  · rw [hi, hi, hi, List.map_append, List.sum_append]
  · rw [hr, hr, hr, List.map_append, List.sum_append]

/-- Witness for C4: the permutation part on a two-element material list and
its swap, the concatenation part on two lists of different lengths (not
permutations of each other). -/
theorem C4_witness :
    (List.Perm [matSample, MaterialEntry.mk none 2 0 0 "d"]
      [MaterialEntry.mk none 2 0 0 "d", matSample]) ∧
    ((assemblyInitial {asmSample with
        materials := [matSample, MaterialEntry.mk none 2 0 0 "d"]} .water
      = assemblyInitial {asmSample with
        materials := [MaterialEntry.mk none 2 0 0 "d", matSample]} .water)
    ∧ (assemblyRecurring 30 {asmSample with
        materials := [matSample, MaterialEntry.mk none 2 0 0 "d"]} .water
      = assemblyRecurring 30 {asmSample with
        materials := [MaterialEntry.mk none 2 0 0 "d", matSample]} .water)) ∧
    ((assemblyInitial {asmSample with
        materials := [matSample]
          ++ [MaterialEntry.mk none 2 0 0 "d", matSample]} .water
      = assemblyInitial {asmSample with materials := [matSample]} .water
        + assemblyInitial {asmSample with
        materials := [MaterialEntry.mk none 2 0 0 "d", matSample]} .water)
    ∧ (assemblyRecurring 30 {asmSample with
        materials := [matSample]
          ++ [MaterialEntry.mk none 2 0 0 "d", matSample]} .water
      = assemblyRecurring 30 {asmSample with materials := [matSample]} .water
        + assemblyRecurring 30 {asmSample with
        materials := [MaterialEntry.mk none 2 0 0 "d", matSample]} .water)) :=
  ⟨List.Perm.swap _ _ _,
   (C4_additivity asmSample [matSample, MaterialEntry.mk none 2 0 0 "d"]
     [MaterialEntry.mk none 2 0 0 "d", matSample] 30 .water).1 (List.Perm.swap _ _ _),
   ⟨(C4_additivity asmSample [matSample]
      [MaterialEntry.mk none 2 0 0 "d", matSample] 30 .water).2.1,
    (C4_additivity asmSample [matSample]
      [MaterialEntry.mk none 2 0 0 "d", matSample] 30 .water).2.2⟩⟩

/-- C5: entries with missing or non-numeric coefficients are skipped — each
one yields exactly one warning, and the flow totals equal the sums over the
remaining entries, which contribute their full amounts; the computation is
total, so no error is raised. -/
theorem C5_skip_missing (a : EPiCAssembly) (design_life : ℚ) (f : FlowType) :
    assemblyInitial a f
      = ((a.materials.filter fun m => m.coeff.isSome).map (entryInitial a f)).sum
    ∧ assemblyRecurring design_life a f
      = ((a.materials.filter fun m => m.coeff.isSome).map
          (entryRecurring design_life a f)).sum
    ∧ assemblyCoeffWarnings a
      = List.replicate (a.materials.filter fun m => m.coeff.isNone).length
          missing_coefficient_warning := by
  refine ⟨?_, ?_, ?_⟩
  · exact sum_map_filter_of_zero _ _ _ (fun m _ hm => by
      have : m.coeff = none := by
        cases hc : m.coeff <;> simp [hc] at hm ⊢
      simp [entryInitial, this])
  · exact sum_map_filter_of_zero _ _ _ (fun m _ hm => by
      have : m.coeff = none := by
        cases hc : m.coeff <;> simp [hc] at hm ⊢
      simp [entryRecurring, entryInitial, this])
  · simp [assemblyCoeffWarnings, List.map_const']

/-- C6: a supplied assembly-level wastage (service-life) override replaces
every material's own wastage (service life) in the flow computation; an
absent override leaves each material's own attribute in use. -/
theorem C6_overrides (a : EPiCAssembly) (f : FlowType) (design_life : ℚ) :
    (∀ w, a.wastage_override = some w →
      assemblyInitial a f
        = (a.materials.map fun m => coeffOrZero m f * m.quantity * (1 + w)).sum)
    ∧ (a.wastage_override = none →
      assemblyInitial a f
        = (a.materials.map fun m => coeffOrZero m f * m.quantity * (1 + m.wastage)).sum)
    ∧ (∀ s, a.service_life_override = some s →
      assemblyRecurring design_life a f
        = (a.materials.map fun m => entryInitial a f m * replacements design_life s).sum)
    ∧ (a.service_life_override = none →
      assemblyRecurring design_life a f
        = (a.materials.map fun m =>
            entryInitial a f m * replacements design_life m.service_life).sum) := by
  refine ⟨?_, ?_, ?_, ?_⟩
  · intro w hw
    simp only [assemblyInitial]
    congr 1
    refine List.map_congr_left fun m _ => ?_
    simp [entryInitial_eq, effectiveWastage, hw]
  · intro hw
    simp only [assemblyInitial]
    congr 1
    refine List.map_congr_left fun m _ => ?_
    simp [entryInitial_eq, effectiveWastage, hw]
  · intro s hs
    simp only [assemblyRecurring]
    congr 1
    refine List.map_congr_left fun m _ => ?_
    simp [entryRecurring, effectiveServiceLife, hs]
  · intro hs
    simp only [assemblyRecurring]
    congr 1
    refine List.map_congr_left fun m _ => ?_
    simp [entryRecurring, effectiveServiceLife, hs]

/-- Witness for C6 on an assembly with a wastage override of 1/2 and no
service-life override. -/
theorem C6_witness :
    (asmOverrideSample.wastage_override = some (1/2)) ∧
    (assemblyInitial asmOverrideSample .energy
      = (asmOverrideSample.materials.map fun m =>
          coeffOrZero m .energy * m.quantity * (1 + (1/2 : ℚ))).sum) ∧
    (asmOverrideSample.service_life_override = none) ∧
    (assemblyRecurring 40 asmOverrideSample .energy
      = (asmOverrideSample.materials.map fun m =>
          entryInitial asmOverrideSample .energy m
            * replacements 40 m.service_life).sum) :=
  ⟨rfl, (C6_overrides asmOverrideSample .energy 40).1 (1/2) rfl, rfl,
   (C6_overrides asmOverrideSample .energy 40).2.2.2 rfl⟩

/-- C7 counterexample: with a supplied energy reduction factor of 50 % the
component's energy output is 1, not the database value 2, so the coefficient
outputs are not unconditionally the stored database values. -/
theorem C7_counterexample :
    (materialRunScript dbSample cdSample lgSample "disc" inpReduced).energyOut = some 1
    ∧ (dbSample "MAT01").energy = some 2
    ∧ ¬ (materialRunScript dbSample cdSample lgSample "disc" inpReduced).energyOut
        = (dbSample "MAT01").energy := by
  have h1 : (materialRunScript dbSample cdSample lgSample "disc" inpReduced).energyOut
      = some 1 := by
    norm_num [materialRunScript, resolveMaterialId, reduceCoefficients, applyReduction,
      pyStrTruthy, pyNumTruthy, MatRun.energyOut, dbSample, cdSample, lgSample, inpReduced]
    rw [if_pos (by simp)]
  refine ⟨h1, rfl, ?_⟩
  rw [h1]
  norm_num [dbSample]

/-- C7 (amended): for a material id selected in its category and no supplied
reduction factors, the component's coefficient outputs (energy, water, ghg),
functional unit, DOI, density and the material object's category are exactly
the values `epic_db.query` returns for that id. -/
theorem C7_database_values (db : String → DbRecord) (cd : String → List String)
    (lg : String → Option String) (disc : String) (inp : MatInputs) (id cat : String)
    (hid : inp.material_id = some id) (hid2 : id ≠ "")
    (hcat : inp.material_category = some cat) (hcat2 : cat ≠ "")
    (hin : id ∈ cd cat)
    (hre : inp.energy_reduction = none) (hrw : inp.water_reduction = none)
    (hrg : inp.ghg_reduction = none) :
    (materialRunScript db cd lg disc inp).energyOut = (db id).energy
    ∧ (materialRunScript db cd lg disc inp).waterOut = (db id).water
    ∧ (materialRunScript db cd lg disc inp).ghgOut = (db id).ghg
    ∧ (materialRunScript db cd lg disc inp).doiOut = some (db id).doi
    ∧ (materialRunScript db cd lg disc inp).densityOut = some (db id).density
    ∧ (materialRunScript db cd lg disc inp).fuOut = some (db id).functional_unit
    ∧ ((materialRunScript db cd lg disc inp).materialOut).map EPiCMaterial.category
        = some (db id).category := by
  rw [materialRunScript_eq_success db cd lg disc inp id cat hid hid2 hcat hcat2 hin]
  rw [hre, hrw, hrg]
  simp [MatRun.energyOut, MatRun.waterOut, MatRun.ghgOut, MatRun.doiOut,
    MatRun.densityOut, MatRun.fuOut, MatRun.materialOut,
    reduceCoefficients_no_reduction]

/-- Witness for the amended C7 at a concrete database record. -/
theorem C7_witness :
    (inpPlain.material_id = some "MAT01" ∧ ("MAT01" : String) ∈ cdSample "cat"
      ∧ inpPlain.energy_reduction = none) ∧
    ((materialRunScript dbSample cdSample lgSample "disc" inpPlain).energyOut
        = (dbSample "MAT01").energy
    ∧ (materialRunScript dbSample cdSample lgSample "disc" inpPlain).waterOut
        = (dbSample "MAT01").water
    ∧ (materialRunScript dbSample cdSample lgSample "disc" inpPlain).ghgOut
        = (dbSample "MAT01").ghg
    ∧ (materialRunScript dbSample cdSample lgSample "disc" inpPlain).doiOut
        = some (dbSample "MAT01").doi
    ∧ (materialRunScript dbSample cdSample lgSample "disc" inpPlain).densityOut
        = some (dbSample "MAT01").density
    ∧ (materialRunScript dbSample cdSample lgSample "disc" inpPlain).fuOut
        = some (dbSample "MAT01").functional_unit
    ∧ ((materialRunScript dbSample cdSample lgSample "disc" inpPlain).materialOut).map
          EPiCMaterial.category
        = some (dbSample "MAT01").category) :=
  ⟨⟨rfl, by simp [cdSample], rfl⟩,
   C7_database_values dbSample cdSample lgSample "disc" inpPlain "MAT01" "cat"
     rfl (by decide) rfl (by decide) (by simp [cdSample]) rfl rfl rfl⟩

/-- C8: the reduction scaling applied to a coefficient `c` is
`c / 100 × |100 − r|`, which is nonnegative for nonnegative `c` — a factor
above 100 scales by `(r − 100)/100` instead of producing a negative value —
and when any of the three coefficients is zero or missing no reduction is
applied to any of the three. -/
theorem C8_abs_scaling (e w g : Option ℚ) (red : Reductions) (c r : ℚ) (hc : 0 ≤ c) :
    ((pyNumTruthy w && pyNumTruthy g && pyNumTruthy e) = false →
      reduceCoefficients e w g red = (e, w, g))
    ∧ applyReduction (some c) (some r) = some (c / 100 * |100 - r|)
    ∧ 0 ≤ c / 100 * |100 - r|
    ∧ (100 < r → c / 100 * |100 - r| = c * ((r - 100) / 100)) := by
  refine ⟨?_, rfl, ?_, ?_⟩
  · intro h
    simp [reduceCoefficients, h]
  · exact mul_nonneg (by positivity) (abs_nonneg _)
  · intro h
    rw [abs_of_neg (by linarith)]
    ring

/-- Witness for C8 at `c = 3`, `r = 150` and a zero water coefficient. -/
theorem C8_witness :
    ((0:ℚ) ≤ 3) ∧
    (((pyNumTruthy (some 0) && pyNumTruthy (some 4) && pyNumTruthy (some 2)) = false →
       reduceCoefficients (some 2) (some 0) (some 4) ⟨some 50, none, none⟩
         = (some 2, some 0, some 4))
     ∧ applyReduction (some 3) (some 150) = some (3 / 100 * |100 - 150|)
     ∧ (0:ℚ) ≤ 3 / 100 * |100 - 150|
     ∧ (100 < (150:ℚ) → (3:ℚ) / 100 * |100 - 150| = 3 * ((150 - 100) / 100))) :=
  ⟨by norm_num,
   C8_abs_scaling (some 2) (some 0) (some 4) ⟨some 50, none, none⟩ 3 150 (by norm_num)⟩

/-- C9: when the `EPiCAssembly` constructor raises `TypeError` (non-Brep
geometry), the volumetric component adds the geometry warning as a runtime
message and returns exactly five copies of the warning string — independent
of the material inputs, so no flow calculation happens — while success
returns seven outputs. -/
theorem C9_geometry_failure (name category comments : Option String)
    (geom : List Geom) (slO wO : Option ℚ) (mats mats2 : List MaterialEntry) :
    (mkEPiCAssembly geom name slO wO comments mats category = none →
      (assemblyRunScript name category comments geom slO wO mats).returns
          = List.replicate 5 (GHValue.str geometry_warning)
        ∧ (assemblyRunScript name category comments geom slO wO mats).messages
          = [geometry_warning]
        ∧ (assemblyRunScript name category comments geom slO wO mats).returns.length = 5
        ∧ assemblyRunScript name category comments geom slO wO mats
          = assemblyRunScript name category comments geom slO wO mats2)
    ∧ (∀ a, mkEPiCAssembly geom name slO wO comments mats category = some a →
        (assemblyRunScript name category comments geom slO wO mats).returns.length = 7) := by
  constructor
  · intro h
    have hg : geom.all Geom.isValid = false := by
      by_contra hc
      rw [Bool.not_eq_false] at hc
      simp [mkEPiCAssembly, hc] at h
    have h2 : mkEPiCAssembly geom name slO wO comments mats2 category = none := by
      simp [mkEPiCAssembly, hg]
    refine ⟨?_, ?_, ?_, ?_⟩ <;> simp [assemblyRunScript, h, h2]
  · intro a ha
    simp [assemblyRunScript, ha]

/-- Witness for C9 on a surface input. -/
theorem C9_witness :
    (mkEPiCAssembly [Geom.surface] none none none none [matSample] none = none) ∧
    ((assemblyRunScript none none none [Geom.surface] none none [matSample]).returns
        = List.replicate 5 (GHValue.str geometry_warning)
      ∧ (assemblyRunScript none none none [Geom.surface] none none [matSample]).messages
        = [geometry_warning]
      ∧ (assemblyRunScript none none none [Geom.surface] none none
          [matSample]).returns.length = 5
      ∧ assemblyRunScript none none none [Geom.surface] none none [matSample]
        = assemblyRunScript none none none [Geom.surface] none none []) :=
  ⟨rfl, (C9_geometry_failure none none none [Geom.surface] none none [matSample] []).1 rfl⟩

/-- C10: whenever the material id or category input is absent, the material
component adds a warning runtime message and returns eleven copies of the
warning string followed by the disclaimer (twelve elements), performs no
database query (the result is independent of the database functions) and
constructs no `EPiCMaterial` object. -/
theorem C10_unselected (db db2 : String → DbRecord) (cd cd2 : String → List String)
    (lg lg2 : String → Option String) (disc : String) (inp : MatInputs)
    (h : (pyStrTruthy inp.material_id && pyStrTruthy inp.material_category) = false) :
    (materialRunScript db cd lg disc inp).result
      = .failure (List.replicate 11 material_component_warning ++ [disc])
    ∧ (materialRunScript db cd lg disc inp).messages = [material_component_warning]
    ∧ (List.replicate 11 material_component_warning ++ [disc]).length = 12
    ∧ (materialRunScript db cd lg disc inp).materialOut = none
    ∧ materialRunScript db cd lg disc inp = materialRunScript db2 cd2 lg2 disc inp := by
  refine ⟨?_, ?_, by simp, ?_, ?_⟩ <;>
    simp [materialRunScript, h, MatRun.materialOut]

/-- Witness for C10 with no category selected and two unrelated databases. -/
theorem C10_witness :
    ((pyStrTruthy inpUnselected.material_id
        && pyStrTruthy inpUnselected.material_category) = false) ∧
    ((materialRunScript dbSample cdSample lgSample "disc" inpUnselected).result
        = .failure (List.replicate 11 material_component_warning ++ ["disc"])
    ∧ (materialRunScript dbSample cdSample lgSample "disc" inpUnselected).messages
        = [material_component_warning]
    ∧ (List.replicate 11 material_component_warning ++ ["disc"]).length = 12
    ∧ (materialRunScript dbSample cdSample lgSample "disc" inpUnselected).materialOut = none
    ∧ materialRunScript dbSample cdSample lgSample "disc" inpUnselected
        = materialRunScript dbZeroWater (fun _ => []) (fun _ => some "X") "disc"
            inpUnselected) :=
  ⟨by decide,
   C10_unselected dbSample dbZeroWater cdSample (fun _ => []) lgSample (fun _ => some "X")
     "disc" inpUnselected (by decide)⟩
